import Mathlib

/-!
Verification of the scrape-and-schedule core of the Unity Asset Store
free-weekly publisher script (src/main.py).

Modelling conventions for the shallow embedding:

* A timezone-aware Python `datetime` is modelled as an absolute day number
  (an integer, with day 0 falling on a Monday so that `weekday()` is the
  day number modulo 7, matching Python's Monday = 0 convention) together
  with a time-of-day in minutes past local midnight.  All instants of one
  run live in a single fixed timezone, mirroring the script which computes
  everything in one zone at a time.
* Python `float` values are modelled as exact rationals; the monetary
  values handled by the script are small decimals parsed from text, for
  which rational arithmetic is the standard idealisation.
* JSON values are modelled by an inductive type `JVal`; the state of the
  savings file is `FileState` (absent, present-but-not-valid-JSON, or a
  parsed JSON value).
* Fallible Python code is embedded in `Except PyExc`: an `Except.error`
  value models an exception propagating out of the translated function,
  and the exception classes that the source catches or raises are the
  constructors of `PyExc`.
* Calls into the network (`requests.get` plus parsing by BeautifulSoup)
  are modelled by explicit input values describing the fetched markup, a
  distinguished constructor standing for a raised
  `requests.exceptions.RequestException`.
* The ambient wall clock read by `datetime.now(tz)` is modelled by a
  `World` value holding the clock reading, passed to the functions that
  read the clock.
-/

namespace AssetNotifier

/-- The Python exception classes relevant to the translated code. -/
inductive PyExc where
  | valueError : PyExc
  | typeError : PyExc
  | attributeError : PyExc
  | indexError : PyExc
deriving DecidableEq

/-- A timezone-aware Python `datetime`, reduced to the observations the
script makes of it: the absolute day number (day 0 is a Monday, so
Python's `weekday()` is `day % 7`) and the time of day in minutes past
midnight (`0 ≤ tod < 1440` for real instants). -/
structure PyDateTime where
  day : ℤ
  tod : ℕ
deriving DecidableEq

/-- Python's `datetime.weekday()`: Monday is 0, Sunday is 6.  With day 0 a
Monday this is the day number modulo 7 (`Int.emod`, matching Python's
nonnegative `%`). -/
def pyWeekday (d : ℤ) : ℤ := d % 7

/-- `next_weekday_at_time` from src/main.py, lines 73-80, with the reading
of `datetime.now(tz)` supplied as the explicit argument `now`:

    days_ahead = (weekday - now.weekday() + 7) % 7
    if days_ahead == 0 and now.time() >= target_time:
        days_ahead = 7
    next_day = (now + timedelta(days=days_ahead)).date()
    return datetime.combine(next_day, target_time, tzinfo=tz)

Adding whole days to an aware datetime shifts the date and keeps the time
of day, so the result is the instant `days_ahead` days after `now`'s date
at `target_time`. -/
def next_weekday_at_time (weekday : ℤ) (target_time : ℕ) (now : PyDateTime) : PyDateTime :=
  let days_ahead := (weekday - pyWeekday now.day + 7) % 7
  let days_ahead := if days_ahead = 0 ∧ target_time ≤ now.tod then 7 else days_ahead
  ⟨now.day + days_ahead, target_time⟩

/-- The ambient state read by the script: the current wall-clock reading
that `datetime.now(tz)` returns. -/
structure World where
  clock : PyDateTime
deriving DecidableEq

/-- The Python function `next_weekday_at_time` as actually callable: its
explicit parameters are only the target weekday and target time (and the
timezone); the reference instant is read from the ambient clock by
`now = datetime.now(tz)` inside the function body (src/main.py line 74). -/
def next_weekday_at_time_ambient (weekday : ℤ) (target_time : ℕ) (w : World) : PyDateTime :=
  next_weekday_at_time weekday target_time w.clock

/-- Modelled from the spec: the contract `nextOccurrence(targetWeekday,
targetTimeOfDay, zone, referenceInstant) -> instant` of spec §4.2, in
which the reference instant is an explicit caller-supplied parameter.
`daysAhead = (targetWeekday - referenceInstant.weekday + 7) mod 7`; if
`daysAhead == 0` and the reference's time-of-day is already at or past the
target time-of-day, advance by 7 days; combine the reference date shifted
by `daysAhead` with the target time-of-day. -/
def nextOccurrenceSpec (targetWeekday : ℤ) (targetTimeOfDay : ℕ)
    (referenceInstant : PyDateTime) : PyDateTime :=
  let daysAhead := (targetWeekday - pyWeekday referenceInstant.day + 7) % 7
  let daysAhead := if daysAhead = 0 ∧ targetTimeOfDay ≤ referenceInstant.tod then 7 else daysAhead
  ⟨referenceInstant.day + daysAhead, targetTimeOfDay⟩

/-- Python's `str.strip()` (also applied by `get_text(strip=True)` and by
`float()`/`int()` on string arguments): remove leading and trailing
whitespace.  Implemented on the character list so that it evaluates by
kernel reduction. -/
def pyStrip (s : String) : String :=
  String.mk (((s.data.dropWhile Char.isWhitespace).reverse.dropWhile Char.isWhitespace).reverse)

/-- Python's `price_text.replace("$", "")` (src/main.py line 151): remove
every occurrence of the currency symbol. -/
def pyRemoveDollar (s : String) : String :=
  String.mk (s.data.filter (fun c => c != '$'))

/-- Numeric value of a list of decimal digit characters. -/
def natOfDigits (cs : List Char) : ℕ :=
  cs.foldl (fun a c => a * 10 + (c.toNat - 48)) 0

/-- Unsigned part of Python's `float(str)`: digits with at most one
decimal point and at least one digit (`"4."` and `".5"` are accepted,
`"."` and `""` are not).  Exponents and the exotic literals (`inf`,
`nan`, underscores) the script never meets are not modelled. -/
def parseUnsignedFloat (cs : List Char) : Option ℚ :=
  let ip := cs.takeWhile (fun c => c != '.')
  match cs.dropWhile (fun c => c != '.') with
  | [] =>
    if ip.isEmpty then none
    else if ip.all Char.isDigit then some ((natOfDigits ip : ℚ)) else none
  | _ :: frac =>
    if frac.contains '.' then none
    else if ip.isEmpty && frac.isEmpty then none
    else if ip.all Char.isDigit && frac.all Char.isDigit then
      some ((natOfDigits ip : ℚ) + (natOfDigits frac : ℚ) / ((10 : ℚ) ^ frac.length))
    else none

/-- Python's `float(str)`: strip whitespace, optional sign, then an
unsigned decimal literal; `none` models the `ValueError` raised on any
other text. -/
def parsePyFloat (s : String) : Option ℚ :=
  match (pyStrip s).data with
  | '-' :: rest => (parseUnsignedFloat rest).map (fun q => -q)
  | '+' :: rest => parseUnsignedFloat rest
  | cs => parseUnsignedFloat cs

/-- Unsigned part of Python's `int(str)`: a nonempty run of digits. -/
def parseUnsignedInt (cs : List Char) : Option ℕ :=
  if cs.isEmpty then none
  else if cs.all Char.isDigit then some (natOfDigits cs) else none

/-- Python's `int(str)`: strip whitespace, optional sign, digits only;
`none` models the `ValueError` raised on any other text. -/
def parsePyInt (s : String) : Option ℤ :=
  match (pyStrip s).data with
  | '-' :: rest => (parseUnsignedInt rest).map (fun n => -(n : ℤ))
  | '+' :: rest => (parseUnsignedInt rest).map (fun n => (n : ℤ))
  | cs => (parseUnsignedInt cs).map (fun n => (n : ℤ))

/-- Python's `int(float)`: truncation toward zero. -/
def pyIntOfQ (q : ℚ) : ℤ := q.num.tdiv q.den

/-- A JSON value as produced by Python's `json.load`. -/
inductive JVal where
  | jnull : JVal
  | jbool : Bool → JVal
  | jint : ℤ → JVal
  | jfloat : ℚ → JVal
  | jstr : String → JVal
  | jarr : List JVal → JVal
  | jobj : List (String × JVal) → JVal

/-- The state of the savings file on disk: absent (`open` raises
`FileNotFoundError`), present but not syntactically valid JSON
(`json.load` raises `json.JSONDecodeError`), or present with a parsed
JSON value. -/
inductive FileState where
  | absent : FileState
  | badSyntax : FileState
  | content : JVal → FileState

/-- Python's `dict.get(key, default)` on a parsed JSON object.  `json.load`
keeps the last binding of a duplicated key, so the lookup scans the pairs
from the right. -/
def jgetD (kvs : List (String × JVal)) (k : String) (d : JVal) : JVal :=
  match kvs.reverse.find? (fun p => p.1 == k) with
  | some p => p.2
  | none => d

/-- Python truthiness of a JSON value (`if last_run` etc.). -/
def pyTruthy : JVal → Bool
  | .jnull => false
  | .jbool b => b
  | .jint n => n != 0
  | .jfloat q => q != 0
  | .jstr s => s != ""
  | .jarr xs => !xs.isEmpty
  | .jobj kvs => !kvs.isEmpty

/-- Python's `==` between a JSON value and a string: only equal strings
compare equal; cross-type comparison is `False`, never an error. -/
def pyEqStr : JVal → String → Bool
  | .jstr t, s => t == s
  | _, _ => false

/-- Python's `float(x)` on a JSON value: numbers and bools convert,
strings are parsed (`ValueError` on failure), `None`, lists and dicts
raise `TypeError`. -/
def pyFloat : JVal → Except PyExc ℚ
  | .jint n => .ok (n : ℚ)
  | .jfloat q => .ok q
  | .jbool b => .ok (if b then 1 else 0)
  | .jstr s =>
    match parsePyFloat s with
    | some q => .ok q
    | none => .error PyExc.valueError
  | .jnull => .error PyExc.typeError
  | .jarr _ => .error PyExc.typeError
  | .jobj _ => .error PyExc.typeError

/-- Python's `int(x)` on a JSON value: ints and bools convert, floats
truncate toward zero, strings are parsed (`ValueError` on failure),
`None`, lists and dicts raise `TypeError`. -/
def pyInt : JVal → Except PyExc ℤ
  | .jint n => .ok n
  | .jfloat q => .ok (pyIntOfQ q)
  | .jbool b => .ok (if b then 1 else 0)
  | .jstr s =>
    match parsePyInt s with
    | some n => .ok n
    | none => .error PyExc.valueError
  | .jnull => .error PyExc.typeError
  | .jarr _ => .error PyExc.typeError
  | .jobj _ => .error PyExc.typeError

/-- Round-half-to-even of a rational to an integer, the rounding used by
Python's builtin `round` (on the exact-decimal idealisation of floats). -/
def roundHalfEven (q : ℚ) : ℤ :=
  if q - ⌊q⌋ < 1/2 then ⌊q⌋
  else if (1 : ℚ)/2 < q - ⌊q⌋ then ⌊q⌋ + 1
  else if ⌊q⌋ % 2 = 0 then ⌊q⌋ else ⌊q⌋ + 1

/-- Python's `round(x, 2)`: round to the nearest multiple of 1/100, ties
to even. -/
def round2 (q : ℚ) : ℚ := ((roundHalfEven (q * 100) : ℤ) : ℚ) / 100

/-- The body of `read_total_savings` inside the `with open` block
(src/main.py lines 164-170): get each field of the parsed JSON value with
its default and convert it.  A non-dict top level makes `data.get` raise
`AttributeError`; a `float()`/`int()` call may raise `ValueError` or
`TypeError`. -/
def read_body (v : JVal) : Except PyExc (ℚ × ℤ × ℚ × ℤ) :=
  match v with
  | .jobj kvs =>
    match pyFloat (jgetD kvs "total_savings" (JVal.jfloat 0)) with
    | .error e => .error e
    | .ok current_savings =>
      match pyInt (jgetD kvs "total_assets" (JVal.jint 0)) with
      | .error e => .error e
      | .ok current_assets =>
        match pyFloat (jgetD kvs "total_cumulative_savings" (JVal.jfloat 0)) with
        | .error e => .error e
        | .ok current_cumulative_savings =>
          match pyInt (jgetD kvs "total_emails_sent" (JVal.jint 0)) with
          | .error e => .error e
          | .ok current_emails_sent =>
            .ok (current_savings, current_assets, current_cumulative_savings,
              current_emails_sent)
  | _ => .error PyExc.attributeError

/-- `read_total_savings` from src/main.py lines 161-176.  The `try` block
catches `FileNotFoundError` (absent file) and `json.JSONDecodeError`
(syntactically invalid content) and `TypeError`, returning the all-zero
defaults; any other exception from the body propagates. -/
def read_total_savings (file : FileState) : Except PyExc (ℚ × ℤ × ℚ × ℤ) :=
  match file with
  | .absent => .ok (0, 0, 0, 0)
  | .badSyntax => .ok (0, 0, 0, 0)
  | .content v =>
    match read_body v with
    | .error PyExc.typeError => .ok (0, 0, 0, 0)
    | r => r

/-- `save_total_savings` from src/main.py lines 179-190: serialize the
four counters (monetary fields rounded to 2 decimals) plus the current
local date, opening the file in `'w'` mode, which truncates: the previous
file state `prev` does not influence the new content.  The
`datetime.now(...)` date reading is the explicit argument `run_date`. -/
def save_total_savings (new_total : ℚ) (new_assets : ℤ) (new_cumulative_savings : ℚ)
    (new_emails_sent : ℤ) (run_date : String) (prev : FileState) : FileState :=
  FileState.content (JVal.jobj [
    ("total_savings", JVal.jfloat (round2 new_total)),
    ("total_assets", JVal.jint new_assets),
    ("total_cumulative_savings", JVal.jfloat (round2 new_cumulative_savings)),
    ("total_emails_sent", JVal.jint new_emails_sent),
    ("last_run_date", JVal.jstr run_date)])

/-- The observations `should_run_now` makes of its `now_pt` argument (a
Python datetime in the America/Los_Angeles zone): the weekday (Monday is
0), the time of day in minutes past midnight, and the ISO-format date
string `now_pt.date().isoformat()` (never empty). -/
structure NowPT where
  weekday : ℕ
  minutes : ℕ
  todayStr : String

/-- The file read inside `should_run_now` (src/main.py lines 221-227):
`FileNotFoundError` and `json.JSONDecodeError` are caught and leave
`last_run = None`; `data.get` on a non-dict JSON top level raises an
uncaught `AttributeError`. -/
def read_last_run (file : FileState) : Except PyExc JVal :=
  match file with
  | .absent => .ok JVal.jnull
  | .badSyntax => .ok JVal.jnull
  | .content (.jobj kvs) => .ok (jgetD kvs "last_run_date" JVal.jnull)
  | .content _ => .error PyExc.attributeError

/-- `should_run_now` from src/main.py lines 198-233: proceed only when the
weekday is Thursday (3), the local time is at or past 8:30 AM (510
minutes), and the recorded `last_run_date` is not already today's date
(`if last_run and last_run == today_str: return False`). -/
def should_run_now (now_pt : NowPT) (file : FileState) : Except PyExc Bool :=
  if now_pt.weekday ≠ 3 then .ok false
  else if now_pt.minutes < 510 then .ok false
  else
    match read_last_run file with
    | .error e => .error e
    | .ok last_run => .ok (!(pyTruthy last_run && pyEqStr last_run now_pt.todayStr))

/-- The `last_run_date` value the ledger file holds: the value stored
under that key when the content is a JSON object, `null` otherwise. -/
def lastRunOf : FileState → JVal
  | .content (.jobj kvs) => jgetD kvs "last_run_date" JVal.jnull
  | _ => JVal.jnull

/-- The element matched by `ASSET_PRICE_SELECTOR` on the asset detail
page: its list of child nodes (`.contents`), each recorded by the raw
text that `get_text` would return for it.  A struck-through
original-price span and a current-price span are two entries of this
list. -/
structure PriceElem where
  contents : List String

/-- Outcome of the detail-page fetch in `scrape_asset_price`:
a network-layer exception from `requests`, or parsed markup in which the
price selector matched some element or none. -/
inductive PriceFetch where
  | netErr : PriceFetch
  | page : Option PriceElem → PriceFetch

/-- `scrape_asset_price` from src/main.py lines 133-158, for an already
resolved URL.  When the selector matches, the text of the last child node
(`contents[-1]`) is stripped, the currency symbol removed and the rest
parsed by `float`; a missing element returns `0.0`, and the `except`
clause catches only `requests.exceptions.RequestException`, so a `float`
failure (`ValueError`) or an empty contents list (`IndexError`)
propagates. -/
def scrape_asset_price (response : PriceFetch) : Except PyExc ℚ :=
  match response with
  | .netErr => .ok 0
  | .page none => .ok 0
  | .page (some price_element) =>
    match price_element.contents.getLast? with
    | none => .error PyExc.indexError
    | some child =>
      let price_text := pyStrip child
      match parsePyFloat (pyRemoveDollar price_text) with
      | some number => .ok number
      | none => .error PyExc.valueError

/-- URL resolution at the top of `scrape_asset_price` (src/main.py lines
135-136): site-relative URLs are prefixed with the store origin. -/
def resolve_asset_url (asset_url : String) : String :=
  if asset_url.startsWith "https://" then asset_url
  else "https://assetstore.unity.com" ++ asset_url

/-- The section matched by `ASSET_PARENT_SELECTOR` on the promotion page,
reduced to what `scrape_asset_info` observes: for each field selector,
whether a first matching element exists and what it carries.  Text
elements carry their raw text; `img` and `a` elements carry the optional
`src`/`href` attribute value (`None` when the attribute is absent). -/
structure RootSection where
  nameElem : Option String
  imageElem : Option (Option String)
  buttonElem : Option (Option String)
  descElem : Option String

/-- Outcome of the promotion-page fetch in `scrape_asset_info`: a
network-layer exception from `requests`, or parsed markup in which the
root selector matched some section or none. -/
inductive InfoFetch where
  | netErr : InfoFetch
  | page : Option RootSection → InfoFetch

/-- The quadruple returned by `scrape_asset_info`; `none` is Python's
`None`. -/
structure Scraped where
  name : Option String
  image : Option String
  descr : Option String
  url : Option String

/-- `scrape_asset_info` from src/main.py lines 40-70.  With the root
section present each field is extracted independently with its own
fallback (`"Asset Name Not Found"`, `""`, `"Asset Description Not
Found"`, `""`); text fields are stripped; attribute reads return `None`
when the attribute is absent.  No root section, or a caught
network-layer exception, yields the all-`None` quadruple; nothing else
raises. -/
def scrape_asset_info (response : InfoFetch) : Scraped :=
  match response with
  | .netErr => ⟨none, none, none, none⟩
  | .page none => ⟨none, none, none, none⟩
  | .page (some free_asset_section) =>
    { name := some (match free_asset_section.nameElem with
        | some t => pyStrip t
        | none => "Asset Name Not Found")
      image := match free_asset_section.imageElem with
        | some src => src
        | none => some ""
      descr := some (match free_asset_section.descElem with
        | some t => pyStrip t
        | none => "Asset Description Not Found")
      url := match free_asset_section.buttonElem with
        | some href => href
        | none => some "" }

/-- Python truthiness of an optional string (`None` and `""` are falsy),
as used by `if not all([asset, description, image, url])` and the
environment-variable checks in `main`. -/
def truthyOpt : Option String → Bool
  | none => false
  | some s => s != ""

/-- The savings update of `main` (src/main.py lines 275-282): only when a
strictly positive price was found, read the ledger, add the price, count
one asset, add `price * successful_subscribers` to the cumulative total,
count the emails, and write the file; otherwise leave the file alone.  An
exception from the read propagates (into `main`'s generic handler). -/
def update_savings (asset_price : ℚ) (successful_subscribers : ℕ) (file : FileState)
    (run_date : String) : Except PyExc (Option FileState) :=
  if 0 < asset_price then
    match read_total_savings file with
    | .error e => .error e
    | .ok (current_savings, current_assets, current_cumulative_savings, current_emails_sent) =>
      .ok (some (save_total_savings (current_savings + asset_price) (current_assets + 1)
        (current_cumulative_savings + asset_price * successful_subscribers)
        (current_emails_sent + successful_subscribers) run_date file))
  else .ok none

/-- The inputs `main` consumes: the run-context environment variable, the
current Pacific-time clock reading, the savings file, the two credential
environment variables, the outcome of the two page fetches, the outcome
of the EmailOctopus update (its successful-subscriber count, or an
exception), and the date written by `save_total_savings`. -/
structure MainInput where
  runContext : Option String
  nowPT : NowPT
  ledgerFile : FileState
  apiKey : Option String
  listId : Option String
  infoFetch : InfoFetch
  notifyResult : Except Unit ℕ
  priceFetch : PriceFetch
  runDate : String

/-- What a `main` run produces: the process exit code, whether the
notification step (`update_all_contacts_fields`) was entered, and the
savings file written, if any. -/
structure MainResult where
  exitCode : ℕ
  notifyAttempted : Bool
  savedFile : Option FileState

/-- `main` from src/main.py line 253 on (after the schedule gate): the
missing-environment check exits with code 2; a scrape result with any
falsy field exits with code 3 before the notification step; the `try`
block around notification, price scraping and the savings update converts
any exception into exit code 1. -/
def main_after_gate (inp : MainInput) : Except PyExc MainResult :=
  if ¬(truthyOpt inp.apiKey = true ∧ truthyOpt inp.listId = true) then .ok ⟨2, false, none⟩
  else
    let s := scrape_asset_info inp.infoFetch
    if ¬(truthyOpt s.name = true ∧ truthyOpt s.descr = true ∧ truthyOpt s.image = true ∧
        truthyOpt s.url = true) then .ok ⟨3, false, none⟩
    else
      match inp.notifyResult with
      | .error _ => .ok ⟨1, true, none⟩
      | .ok successful_subscribers =>
        match scrape_asset_price inp.priceFetch with
        | .error _ => .ok ⟨1, true, none⟩
        | .ok asset_price =>
          match update_savings asset_price successful_subscribers inp.ledgerFile inp.runDate with
          | .error _ => .ok ⟨1, true, none⟩
          | .ok savedFile => .ok ⟨0, true, savedFile⟩

/-- `main` from src/main.py lines 236-289: under `RUN_CONTEXT ==
"schedule"` the `should_run_now` gate may exit early with code 0 (or
crash on its uncaught exception); any other run context bypasses the
gate. -/
def main (inp : MainInput) : Except PyExc MainResult :=
  if inp.runContext = some "schedule" then
    match should_run_now inp.nowPT inp.ledgerFile with
    | .error e => .error e
    | .ok false => .ok ⟨0, false, none⟩
    | .ok true => main_after_gate inp
  else main_after_gate inp

/-- Claim C1: for every reference instant and every target weekday and
target time-of-day, `next_weekday_at_time` returns an instant whose
weekday equals the target weekday and whose local time-of-day equals the
target time, strictly greater than the reference instant; and when the
reference instant falls exactly on the target weekday at exactly the
target time-of-day, the result is exactly 7 days later. -/
theorem next_weekday_at_time_correct (wd : ℤ) (tgt : ℕ) (now : PyDateTime)
    (hwd0 : 0 ≤ wd) (hwd7 : wd < 7) (htgt : tgt < 1440) (htod : now.tod < 1440) :
    pyWeekday (next_weekday_at_time wd tgt now).day = wd ∧
    (next_weekday_at_time wd tgt now).tod = tgt ∧
    (now.day < (next_weekday_at_time wd tgt now).day ∨
      (now.day = (next_weekday_at_time wd tgt now).day ∧
        now.tod < (next_weekday_at_time wd tgt now).tod)) ∧
    (pyWeekday now.day = wd ∧ now.tod = tgt →
      next_weekday_at_time wd tgt now = ⟨now.day + 7, now.tod⟩) := by
  simp only [next_weekday_at_time, pyWeekday, PyDateTime.mk.injEq]
  by_cases hc : (wd - now.day % 7 + 7) % 7 = 0 ∧ tgt ≤ now.tod
  · rw [if_pos hc]
    obtain ⟨h1, h2⟩ := hc
    refine ⟨?_, trivial, ?_, ?_⟩ <;> omega
  · rw [if_neg hc]
    refine ⟨?_, trivial, ?_, ?_⟩ <;> omega

/-- Witness for C1: a reference instant falling on a Thursday (day 3)
exactly at the target time 8:00 (480 minutes) with target weekday
Thursday; the conclusion instantiates to the concrete run. -/
theorem next_weekday_at_time_correct_witness :
    pyWeekday (next_weekday_at_time 3 480 (PyDateTime.mk 3 480)).day = 3 ∧
    (next_weekday_at_time 3 480 (PyDateTime.mk 3 480)).tod = 480 ∧
    ((PyDateTime.mk 3 480).day < (next_weekday_at_time 3 480 (PyDateTime.mk 3 480)).day ∨
      ((PyDateTime.mk 3 480).day = (next_weekday_at_time 3 480 (PyDateTime.mk 3 480)).day ∧
        (PyDateTime.mk 3 480).tod < (next_weekday_at_time 3 480 (PyDateTime.mk 3 480)).tod)) ∧
    (pyWeekday (PyDateTime.mk 3 480).day = 3 ∧ (PyDateTime.mk 3 480).tod = 480 →
      next_weekday_at_time 3 480 (PyDateTime.mk 3 480) =
        ⟨(PyDateTime.mk 3 480).day + 7, (PyDateTime.mk 3 480).tod⟩) :=
  next_weekday_at_time_correct 3 480 (PyDateTime.mk 3 480)
    (by decide) (by decide) (by decide) (by decide)

/-- Counterexample for claim C10: two invocations of
`next_weekday_at_time` with identical explicit Python arguments (target
weekday 3, target time 480 minutes, same timezone) but different ambient
clock states return different results.  The reference instant is read
from the hidden wall clock inside the function body, not supplied by the
caller as the claim states. -/
theorem next_weekday_ambient_depends_on_hidden_clock :
    next_weekday_at_time_ambient 3 480 (World.mk (PyDateTime.mk 0 0)) ≠
      next_weekday_at_time_ambient 3 480 (World.mk (PyDateTime.mk 7 0)) := by decide

/-- Claim C10 (amended): the next-occurrence computation is pure and
deterministic given a fixed clock reading — two calls with the same target
weekday, target time-of-day, timezone and the same ambient clock state
return the same result, and that result is exactly the spec's
`nextOccurrence` contract applied to the clock reading — but the
reference instant is obtained from the ambient clock inside the function,
not passed as an explicit caller-supplied parameter. -/
theorem next_weekday_deterministic_given_clock (wd : ℤ) (tgt : ℕ) (w w' : World)
    (h : w.clock = w'.clock) :
    next_weekday_at_time_ambient wd tgt w = next_weekday_at_time_ambient wd tgt w' ∧
    next_weekday_at_time_ambient wd tgt w = nextOccurrenceSpec wd tgt w.clock := by
  constructor
  · unfold next_weekday_at_time_ambient
    rw [h]
  · rfl

/-- Witness for the amended C10: two worlds with the same concrete clock
reading give the same result, equal to the spec contract's value. -/
theorem next_weekday_deterministic_given_clock_witness :
    next_weekday_at_time_ambient 3 480 (World.mk (PyDateTime.mk 0 0)) =
      next_weekday_at_time_ambient 3 480 (World.mk (PyDateTime.mk 0 0)) ∧
    next_weekday_at_time_ambient 3 480 (World.mk (PyDateTime.mk 0 0)) =
      nextOccurrenceSpec 3 480 (World.mk (PyDateTime.mk 0 0)).clock :=
  next_weekday_deterministic_given_clock 3 480
    (World.mk (PyDateTime.mk 0 0)) (World.mk (PyDateTime.mk 0 0)) rfl

/-- Reading a file just written by `save_total_savings` recovers the
rounded monetary fields and the exact integer counts. -/
theorem read_total_savings_save (t : ℚ) (n : ℤ) (c : ℚ) (e : ℤ) (d : String) (prev : FileState) :
    read_total_savings (save_total_savings t n c e d prev) = .ok (round2 t, n, round2 c, e) :=
  rfl

/-- Claim C6: for every ledger state, `save_total_savings` followed by
`read_total_savings` returns the monetary fields rounded to 2 decimal
places and the integer counts unchanged; and the write fully overwrites
the backing file — the new file state does not depend on the previous
one. -/
theorem ledger_roundtrip (t : ℚ) (n : ℤ) (c : ℚ) (e : ℤ) (d : String) (prev prev' : FileState) :
    read_total_savings (save_total_savings t n c e d prev) = .ok (round2 t, n, round2 c, e) ∧
    save_total_savings t n c e d prev = save_total_savings t n c e d prev' :=
  ⟨read_total_savings_save t n c e d prev, rfl⟩

/-- Claim C8: every fetch outcome either yields the all-`None` quadruple
(in particular both a markup document whose root selector matches nothing
and a caught network-layer exception do) or the root selector matched
some section; `scrape_asset_info` is total — a missing element never
raises.  There is no partially populated failure result. -/
theorem scrape_asset_info_no_root_all_none (response : InfoFetch) :
    scrape_asset_info response = ⟨none, none, none, none⟩ ∨
      ∃ root, response = InfoFetch.page (some root) := by
  cases response with
  | netErr => exact Or.inl rfl
  | page o =>
    cases o with
    | none => exact Or.inl rfl
    | some root => exact Or.inr ⟨root, rfl⟩

/-- Claim C7: with the root section present, each of the four fields gets
its own fallback when its selector finds nothing (`"Asset Name Not
Found"`, `""` for the image, `"Asset Description Not Found"`, `""` for
the claim URL), and each field is a function of its own element only —
no field's extraction depends on another field's presence. -/
theorem scrape_asset_info_fields_independent (r r' : RootSection) :
    (r.nameElem = none →
      (scrape_asset_info (InfoFetch.page (some r))).name = some "Asset Name Not Found") ∧
    (r.imageElem = none →
      (scrape_asset_info (InfoFetch.page (some r))).image = some "") ∧
    (r.descElem = none →
      (scrape_asset_info (InfoFetch.page (some r))).descr = some "Asset Description Not Found") ∧
    (r.buttonElem = none →
      (scrape_asset_info (InfoFetch.page (some r))).url = some "") ∧
    (r.nameElem = r'.nameElem →
      (scrape_asset_info (InfoFetch.page (some r))).name =
        (scrape_asset_info (InfoFetch.page (some r'))).name) ∧
    (r.imageElem = r'.imageElem →
      (scrape_asset_info (InfoFetch.page (some r))).image =
        (scrape_asset_info (InfoFetch.page (some r'))).image) ∧
    (r.descElem = r'.descElem →
      (scrape_asset_info (InfoFetch.page (some r))).descr =
        (scrape_asset_info (InfoFetch.page (some r'))).descr) ∧
    (r.buttonElem = r'.buttonElem →
      (scrape_asset_info (InfoFetch.page (some r))).url =
        (scrape_asset_info (InfoFetch.page (some r'))).url) := by
  refine ⟨?_, ?_, ?_, ?_, ?_, ?_, ?_, ?_⟩ <;>
    (intro h; simp only [scrape_asset_info, h])

/-- Witness for C7: markup with the root present but the image element
missing yields the empty-string image fallback, while the present name
field is populated from the markup. -/
theorem scrape_asset_info_fields_independent_witness :
    (scrape_asset_info (InfoFetch.page (some
      (RootSection.mk (some "Cool Asset") none (some (some "/packages/cool")) (some "Nice"))))).image
      = some "" ∧
    (scrape_asset_info (InfoFetch.page (some
      (RootSection.mk (some "Cool Asset") none (some (some "/packages/cool")) (some "Nice"))))).name
      = some "Cool Asset" :=
  ⟨(scrape_asset_info_fields_independent
      (RootSection.mk (some "Cool Asset") none (some (some "/packages/cool")) (some "Nice"))
      (RootSection.mk (some "Cool Asset") none (some (some "/packages/cool")) (some "Nice"))).2.1
    rfl, by decide⟩

/-- Counterexample for claim C2: a detail page where the price selector
matches an element whose last child's text is not a valid number.  The
claim says every such failure yields `0.0`; instead the `ValueError` from
`float` propagates out of `scrape_asset_price` (only
`requests.exceptions.RequestException` is caught). -/
theorem scrape_asset_price_nonnumeric_raises :
    scrape_asset_price (PriceFetch.page (some (PriceElem.mk ["$10.00", "N/A"]))) =
      .error PyExc.valueError ∧
    scrape_asset_price (PriceFetch.page (some (PriceElem.mk ["$10.00", "N/A"]))) ≠
      .ok 0 := by
  have h1 : scrape_asset_price (PriceFetch.page (some (PriceElem.mk ["$10.00", "N/A"]))) =
      .error PyExc.valueError := rfl
  exact ⟨h1, fun h => Except.noConfusion (h1 ▸ h)⟩

/-- Claim C2 (amended): when the price selector matches an element with a
nonempty contents list, `scrape_asset_price` takes the text of the last
child node (skipping any earlier siblings such as a struck-through
original price), strips it, removes the currency symbol and parses a
decimal number; a missing element or a caught network-layer error yields
`0.0`; but when the extracted text is not a valid number the `ValueError`
propagates instead of yielding `0.0`. -/
theorem scrape_asset_price_behavior (earlier : List String) (lastChild : String) :
    scrape_asset_price PriceFetch.netErr = .ok 0 ∧
    scrape_asset_price (PriceFetch.page none) = .ok 0 ∧
    ((∃ q, parsePyFloat (pyRemoveDollar (pyStrip lastChild)) = some q ∧
        scrape_asset_price (PriceFetch.page (some (PriceElem.mk (earlier ++ [lastChild])))) =
          .ok q) ∨
      (parsePyFloat (pyRemoveDollar (pyStrip lastChild)) = none ∧
        scrape_asset_price (PriceFetch.page (some (PriceElem.mk (earlier ++ [lastChild])))) =
          .error PyExc.valueError)) := by
  refine ⟨rfl, rfl, ?_⟩
  cases h : parsePyFloat (pyRemoveDollar (pyStrip lastChild)) with
  | none =>
    right
    refine ⟨rfl, ?_⟩
    simp only [scrape_asset_price, List.getLast?_concat, h]
  | some q =>
    left
    refine ⟨q, rfl, ?_⟩
    simp only [scrape_asset_price, List.getLast?_concat, h]

/-- `dict.get` returns either the supplied default or a value bound in
the dictionary. -/
theorem jgetD_cases (kvs : List (String × JVal)) (k : String) (d : JVal) :
    jgetD kvs k d = d ∨ ∃ k', (k', jgetD kvs k d) ∈ kvs := by
  unfold jgetD
  cases h : kvs.reverse.find? (fun p => p.1 == k) with
  | none => exact Or.inl rfl
  | some p =>
    right
    refine ⟨p.1, ?_⟩
    have hmem := List.mem_of_find?_eq_some h
    rw [List.mem_reverse] at hmem
    exact hmem

/-- `float(x)` succeeds on JSON numbers. -/
theorem pyFloat_numeric_ok (v : JVal)
    (h : (∃ n, v = JVal.jint n) ∨ (∃ q, v = JVal.jfloat q)) : ∃ x, pyFloat v = .ok x := by
  rcases h with ⟨n, rfl⟩ | ⟨q, rfl⟩
  · exact ⟨(n : ℚ), rfl⟩
  · exact ⟨q, rfl⟩

/-- `int(x)` succeeds on JSON numbers. -/
theorem pyInt_numeric_ok (v : JVal)
    (h : (∃ n, v = JVal.jint n) ∨ (∃ q, v = JVal.jfloat q)) : ∃ x, pyInt v = .ok x := by
  rcases h with ⟨n, rfl⟩ | ⟨q, rfl⟩
  · exact ⟨n, rfl⟩
  · exact ⟨pyIntOfQ q, rfl⟩

/-- Counterexample for claim C4: a backing file whose content is valid
JSON but holds a non-numeric string under `total_savings`.  The claim
says every malformed content yields the all-zero defaults without
raising; instead `float("abc")` raises `ValueError`, which the `except`
clause (catching only `FileNotFoundError`, `json.JSONDecodeError` and
`TypeError`) does not stop. -/
theorem read_total_savings_string_field_raises :
    read_total_savings (FileState.content (JVal.jobj [("total_savings", JVal.jstr "abc")])) =
      .error PyExc.valueError :=
  rfl

/-- Claim C4 (amended): `read_total_savings` returns the all-zero
defaults without raising when the file is absent, when its content is
not syntactically valid JSON, and it succeeds on every JSON object whose
bound values are numbers; `TypeError`-class mismatches (null, list or
dict field values) are caught and never escape; but a string field value
that does not parse as a number propagates `ValueError`, and a non-object
top level propagates `AttributeError`, so the function is not total on
all malformed contents. -/
theorem read_total_savings_robustness (fs : FileState) :
    (fs = FileState.absent → read_total_savings fs = .ok (0, 0, 0, 0)) ∧
    (fs = FileState.badSyntax → read_total_savings fs = .ok (0, 0, 0, 0)) ∧
    (∀ kvs, fs = FileState.content (JVal.jobj kvs) →
      (∀ k v, (k, v) ∈ kvs → (∃ n, v = JVal.jint n) ∨ (∃ q, v = JVal.jfloat q)) →
      ∃ s a c e, read_total_savings fs = .ok (s, a, c, e)) ∧
    (∀ v, fs = FileState.content v → read_total_savings fs ≠ .error PyExc.typeError) := by
  refine ⟨fun h => by subst h; rfl, fun h => by subst h; rfl, ?_, ?_⟩
  · intro kvs hfs hnum
    subst hfs
    have hget : ∀ (k : String) (d : JVal),
        ((∃ n, d = JVal.jint n) ∨ (∃ q, d = JVal.jfloat q)) →
        (∃ n, jgetD kvs k d = JVal.jint n) ∨ (∃ q, jgetD kvs k d = JVal.jfloat q) := by
      intro k d hd
      rcases jgetD_cases kvs k d with h | ⟨k', hmem⟩
      · rw [h]; exact hd
      · exact hnum k' _ hmem
    obtain ⟨s, hs⟩ := pyFloat_numeric_ok _ (hget "total_savings" (JVal.jfloat 0) (Or.inr ⟨0, rfl⟩))
    obtain ⟨a, ha⟩ := pyInt_numeric_ok _ (hget "total_assets" (JVal.jint 0) (Or.inl ⟨0, rfl⟩))
    obtain ⟨c, hc⟩ := pyFloat_numeric_ok _
      (hget "total_cumulative_savings" (JVal.jfloat 0) (Or.inr ⟨0, rfl⟩))
    obtain ⟨e2, he⟩ := pyInt_numeric_ok _
      (hget "total_emails_sent" (JVal.jint 0) (Or.inl ⟨0, rfl⟩))
    have hbody : read_body (JVal.jobj kvs) = .ok (s, a, c, e2) := by
      simp only [read_body, hs, ha, hc, he]
    exact ⟨s, a, c, e2, by simp only [read_total_savings, hbody]⟩
  · intro v hv
    subst hv
    cases hb : read_body v with
    | error e => cases e <;> simp [read_total_savings, hb]
    | ok r => simp [read_total_savings, hb]

/-- Witness for the amended C4: an empty JSON object reads back as a
successful quadruple (the defaults). -/
theorem read_total_savings_robustness_witness :
    ∃ s a c e, read_total_savings (FileState.content (JVal.jobj [])) = .ok (s, a, c, e) :=
  (read_total_savings_robustness (FileState.content (JVal.jobj []))).2.2.1 [] rfl
    (fun k v h => absurd h (List.not_mem_nil (k, v)))

/-- The gate condition `last_run and last_run == today_str` holds exactly
when the recorded value is the (nonempty) today string. -/
theorem pyTruthy_pyEqStr_iff (lr : JVal) (s : String) (hs : s ≠ "") :
    (pyTruthy lr && pyEqStr lr s) = true ↔ lr = JVal.jstr s := by
  cases lr with
  | jstr t =>
    simp only [pyTruthy, pyEqStr, Bool.and_eq_true, bne_iff_ne, ne_eq, beq_iff_eq,
      JVal.jstr.injEq]
    constructor
    · rintro ⟨h1, h2⟩; exact h2
    · intro h; subst h; exact ⟨hs, rfl⟩
  | jnull => simp [pyTruthy, pyEqStr]
  | jbool b => simp [pyTruthy, pyEqStr]
  | jint n => simp [pyTruthy, pyEqStr]
  | jfloat q => simp [pyTruthy, pyEqStr]
  | jarr xs => simp [pyTruthy, pyEqStr]
  | jobj kvs => simp [pyTruthy, pyEqStr]

/-- Counterexample for claim C5: on a Thursday at 9:00 AM PT (well past
the cutoff) with a ledger file whose content is the valid JSON value `5`
(not an object), `should_run_now` returns neither `True` nor `False` —
`data.get` raises an uncaught `AttributeError` — so the claimed
equivalence fails for this state of the ledger file. -/
theorem should_run_now_nonobject_crashes :
    should_run_now (NowPT.mk 3 540 "2026-01-08") (FileState.content (JVal.jint 5)) ≠
      .ok true ∧
    should_run_now (NowPT.mk 3 540 "2026-01-08") (FileState.content (JVal.jint 5)) ≠
      .ok false := by
  have h : should_run_now (NowPT.mk 3 540 "2026-01-08") (FileState.content (JVal.jint 5)) =
      .error PyExc.attributeError := rfl
  exact ⟨fun hc => Except.noConfusion (h ▸ hc), fun hc => Except.noConfusion (h ▸ hc)⟩

/-- Claim C5 (amended): for every local instant and every ledger file
state that is absent, syntactically invalid, or a JSON object,
`should_run_now` returns true iff the weekday is Thursday (3), the time
of day is at or past 8:30 AM (510 minutes), and the recorded
`last_run_date` is not today's date; on valid-JSON non-object content it
instead raises an uncaught `AttributeError`. -/
theorem should_run_now_gate (now : NowPT) (fs : FileState) (hts : now.todayStr ≠ "")
    (hdom : fs = FileState.absent ∨ fs = FileState.badSyntax ∨
      ∃ kvs, fs = FileState.content (JVal.jobj kvs)) :
    should_run_now now fs = .ok true ↔
      (now.weekday = 3 ∧ 510 ≤ now.minutes ∧ lastRunOf fs ≠ JVal.jstr now.todayStr) := by
  have hread : read_last_run fs = .ok (lastRunOf fs) := by
    rcases hdom with rfl | rfl | ⟨kvs, rfl⟩ <;> rfl
  have hval : should_run_now now fs =
      if now.weekday ≠ 3 then .ok false
      else if now.minutes < 510 then .ok false
      else .ok (!(pyTruthy (lastRunOf fs) && pyEqStr (lastRunOf fs) now.todayStr)) := by
    unfold should_run_now
    rw [hread]
  rw [hval]
  by_cases h1 : now.weekday ≠ 3
  · rw [if_pos h1]
    simp [h1]
  · rw [if_neg h1]
    have h1' : now.weekday = 3 := not_ne_iff.mp h1
    by_cases h2 : now.minutes < 510
    · rw [if_pos h2]
      have h2' : ¬(510 ≤ now.minutes) := Nat.not_le.mpr h2
      simp [h2']
    · rw [if_neg h2]
      have h2' : 510 ≤ now.minutes := Nat.not_lt.mp h2
      have hiff := pyTruthy_pyEqStr_iff (lastRunOf fs) now.todayStr hts
      constructor
      · intro h
        refine ⟨h1', h2', fun hcon => ?_⟩
        have hb := Except.ok.inj h
        rw [hiff.mpr hcon] at hb
        exact Bool.noConfusion hb
      · rintro ⟨-, -, h3⟩
        have hx : (pyTruthy (lastRunOf fs) && pyEqStr (lastRunOf fs) now.todayStr) = false :=
          Bool.not_eq_true _ |>.mp (fun hxx => h3 (hiff.mp hxx))
        rw [hx]
        rfl

/-- Witness for the amended C5: Thursday 9:00 AM PT with a ledger
recording a different last-run date lets the run proceed. -/
theorem should_run_now_gate_witness :
    should_run_now (NowPT.mk 3 540 "2026-01-08")
      (FileState.content (JVal.jobj [("last_run_date", JVal.jstr "2026-01-01")])) = .ok true :=
  (should_run_now_gate (NowPT.mk 3 540 "2026-01-08")
    (FileState.content (JVal.jobj [("last_run_date", JVal.jstr "2026-01-01")]))
    (by decide)
    (Or.inr (Or.inr ⟨[("last_run_date", JVal.jstr "2026-01-01")], rfl⟩))).mpr
    ⟨rfl, by decide, fun h => absurd (JVal.jstr.inj h) (by decide)⟩

/-- Rounding half-to-even never goes below the floor. -/
theorem roundHalfEven_ge_floor (q : ℚ) : ⌊q⌋ ≤ roundHalfEven q := by
  unfold roundHalfEven
  split_ifs <;> omega

/-- Any integer below the argument is below its half-to-even rounding. -/
theorem le_roundHalfEven (k : ℤ) (q : ℚ) (h : (k : ℚ) ≤ q) : k ≤ roundHalfEven q :=
  le_trans (Int.le_floor.mpr h) (roundHalfEven_ge_floor q)

/-- Adding a nonnegative amount to an already-rounded value and rounding
again never decreases it. -/
theorem round2_le_round2_add (x p : ℚ) (hp : 0 ≤ p) : round2 x ≤ round2 (round2 x + p) := by
  have h1 : ((roundHalfEven (x * 100) : ℤ) : ℚ) ≤ (round2 x + p) * 100 := by
    have hx : round2 x = ((roundHalfEven (x * 100) : ℤ) : ℚ) / 100 := rfl
    rw [hx]
    have hr : (((roundHalfEven (x * 100) : ℤ) : ℚ) / 100 + p) * 100 =
        ((roundHalfEven (x * 100) : ℤ) : ℚ) + p * 100 := by ring
    have h0 : 0 ≤ p * 100 := mul_nonneg hp (by norm_num)
    rw [hr]
    linarith
  have h2 : roundHalfEven (x * 100) ≤ roundHalfEven ((round2 x + p) * 100) :=
    le_roundHalfEven _ _ h1
  have h3 : ((roundHalfEven (x * 100) : ℤ) : ℚ) ≤
      ((roundHalfEven ((round2 x + p) * 100) : ℤ) : ℚ) := by exact_mod_cast h2
  calc round2 x = ((roundHalfEven (x * 100) : ℤ) : ℚ) / 100 := rfl
    _ ≤ ((roundHalfEven ((round2 x + p) * 100) : ℤ) : ℚ) / 100 :=
        div_le_div_of_nonneg_right h3 (by norm_num)
    _ = round2 (round2 x + p) := rfl

/-- Claim C9: starting from a ledger file written by a previous
successful run, a run that found a strictly positive price writes a file
in which every numeric field is at least its previously stored value
(the stored monetary values are `round2 s0` and `round2 c0`, and the
newly stored ones are their rounded increments); and when no positive
price was found the run writes nothing. -/
theorem ledger_update_monotone (asset_price : ℚ) (succ : ℕ) (s0 c0 : ℚ) (a0 e0 : ℤ)
    (d0 d1 : String) (prev : FileState) :
    (0 < asset_price →
      update_savings asset_price succ (save_total_savings s0 a0 c0 e0 d0 prev) d1 =
        .ok (some (save_total_savings (round2 s0 + asset_price) (a0 + 1)
          (round2 c0 + asset_price * succ) (e0 + succ) d1
          (save_total_savings s0 a0 c0 e0 d0 prev))) ∧
      round2 s0 ≤ round2 (round2 s0 + asset_price) ∧
      a0 ≤ a0 + 1 ∧
      round2 c0 ≤ round2 (round2 c0 + asset_price * succ) ∧
      e0 ≤ e0 + succ) ∧
    (¬(0 < asset_price) →
      update_savings asset_price succ (save_total_savings s0 a0 c0 e0 d0 prev) d1 =
        .ok none) := by
  constructor
  · intro hp
    refine ⟨?_, ?_, by omega, ?_, by omega⟩
    · unfold update_savings
      rw [if_pos hp, read_total_savings_save]
    · exact round2_le_round2_add s0 asset_price (le_of_lt hp)
    · exact round2_le_round2_add c0 (asset_price * succ)
        (mul_nonneg (le_of_lt hp) (Nat.cast_nonneg succ))
  · intro hp
    unfold update_savings
    rw [if_neg hp]

/-- Witness for C9: a run finding a price of 1 with 2 subscribers over a
fresh all-zero ledger updates every counter. -/
theorem ledger_update_monotone_witness :
    update_savings 1 2 (save_total_savings 0 0 0 0 "2026-01-01" FileState.absent) "2026-01-08" =
      .ok (some (save_total_savings (round2 0 + 1) (0 + 1) (round2 0 + 1 * ((2 : ℕ) : ℚ))
        (0 + ((2 : ℕ) : ℤ)) "2026-01-08"
        (save_total_savings 0 0 0 0 "2026-01-01" FileState.absent))) :=
  ((ledger_update_monotone 1 2 0 0 0 0 "2026-01-01" "2026-01-08" FileState.absent).1
    one_pos).1

/-- A truthy optional string is not `None`. -/
theorem truthyOpt_ne_none (o : Option String) (h : truthyOpt o = true) : o ≠ none := by
  intro hno
  rw [hno] at h
  exact Bool.noConfusion h

/-- A successful `main` run either stopped at the schedule gate with exit
code 0 or ran the post-gate body. -/
theorem main_run_cases (inp : MainInput) (res : MainResult) (h : main inp = .ok res) :
    res = ⟨0, false, none⟩ ∨ main_after_gate inp = .ok res := by
  unfold main at h
  by_cases hrc : inp.runContext = some "schedule"
  · rw [if_pos hrc] at h
    cases hsr : should_run_now inp.nowPT inp.ledgerFile with
    | error e =>
      rw [hsr] at h
      exact Except.noConfusion h
    | ok b =>
      rw [hsr] at h
      cases b with
      | false => exact Or.inl (Except.ok.inj h).symm
      | true => exact Or.inr h
  · rw [if_neg hrc] at h
    exact Or.inr h

/-- If the post-gate body reached the notification step, all four scraped
fields passed the truthiness check. -/
theorem main_after_gate_attempt (inp : MainInput) (res : MainResult)
    (h : main_after_gate inp = .ok res) (hn : res.notifyAttempted = true) :
    truthyOpt (scrape_asset_info inp.infoFetch).name = true ∧
    truthyOpt (scrape_asset_info inp.infoFetch).descr = true ∧
    truthyOpt (scrape_asset_info inp.infoFetch).image = true ∧
    truthyOpt (scrape_asset_info inp.infoFetch).url = true := by
  simp only [main_after_gate] at h
  by_cases he : truthyOpt inp.apiKey = true ∧ truthyOpt inp.listId = true
  · rw [if_neg (not_not_intro he)] at h
    by_cases hf : truthyOpt (scrape_asset_info inp.infoFetch).name = true ∧
        truthyOpt (scrape_asset_info inp.infoFetch).descr = true ∧
        truthyOpt (scrape_asset_info inp.infoFetch).image = true ∧
        truthyOpt (scrape_asset_info inp.infoFetch).url = true
    · exact hf
    · rw [if_pos hf] at h
      rw [(Except.ok.inj h).symm] at hn
      exact Bool.noConfusion hn
  · rw [if_pos he] at h
    rw [(Except.ok.inj h).symm] at hn
    exact Bool.noConfusion hn

/-- Claim C3: whenever extraction leaves any of the four required fields
`None`, a run that reaches the extraction step (gate passed, credentials
present) exits with the dedicated code 3 before the notification step,
writing nothing; and conversely any successful run that did reach the
notification step had all four fields non-`None` — a record is usable
only when all four fields are non-null. -/
theorem main_missing_field_aborts (inp : MainInput) :
    ((inp.runContext = some "schedule" →
        should_run_now inp.nowPT inp.ledgerFile = .ok true) →
      truthyOpt inp.apiKey = true → truthyOpt inp.listId = true →
      ((scrape_asset_info inp.infoFetch).name = none ∨
        (scrape_asset_info inp.infoFetch).image = none ∨
        (scrape_asset_info inp.infoFetch).descr = none ∨
        (scrape_asset_info inp.infoFetch).url = none) →
      main inp = .ok ⟨3, false, none⟩) ∧
    (∀ res, main inp = .ok res → res.notifyAttempted = true →
      (scrape_asset_info inp.infoFetch).name ≠ none ∧
      (scrape_asset_info inp.infoFetch).image ≠ none ∧
      (scrape_asset_info inp.infoFetch).descr ≠ none ∧
      (scrape_asset_info inp.infoFetch).url ≠ none) := by
  constructor
  · intro hgate hak hli hmiss
    have hfield : ¬(truthyOpt (scrape_asset_info inp.infoFetch).name = true ∧
        truthyOpt (scrape_asset_info inp.infoFetch).descr = true ∧
        truthyOpt (scrape_asset_info inp.infoFetch).image = true ∧
        truthyOpt (scrape_asset_info inp.infoFetch).url = true) := by
      rintro ⟨h1, h2, h3, h4⟩
      rcases hmiss with h | h | h | h
      · exact truthyOpt_ne_none _ h1 h
      · exact truthyOpt_ne_none _ h3 h
      · exact truthyOpt_ne_none _ h2 h
      · exact truthyOpt_ne_none _ h4 h
    have hag : main_after_gate inp = .ok ⟨3, false, none⟩ := by
      simp only [main_after_gate]
      rw [if_neg (not_not_intro ⟨hak, hli⟩), if_pos hfield]
    unfold main
    by_cases hrc : inp.runContext = some "schedule"
    · rw [if_pos hrc, hgate hrc]
      exact hag
    · rw [if_neg hrc]
      exact hag
  · intro res hres hn
    rcases main_run_cases inp res hres with h0 | hag
    · rw [h0] at hn
      exact Bool.noConfusion hn
    · have h4 := main_after_gate_attempt inp res hag hn
      exact ⟨truthyOpt_ne_none _ h4.1, truthyOpt_ne_none _ h4.2.2.1,
        truthyOpt_ne_none _ h4.2.1, truthyOpt_ne_none _ h4.2.2.2⟩

/-- Witness for C3: a manually triggered run with credentials set whose
promotion-page fetch failed (all fields `None`) exits with code 3 and
never reaches the notification step. -/
theorem main_missing_field_aborts_witness :
    main (MainInput.mk none (NowPT.mk 0 0 "2026-01-08") FileState.absent (some "key")
      (some "list") InfoFetch.netErr (Except.ok 0) PriceFetch.netErr "2026-01-08") =
      .ok ⟨3, false, none⟩ :=
  (main_missing_field_aborts (MainInput.mk none (NowPT.mk 0 0 "2026-01-08") FileState.absent
      (some "key") (some "list") InfoFetch.netErr (Except.ok 0) PriceFetch.netErr
      "2026-01-08")).1
    (fun h => Option.noConfusion h) rfl rfl (Or.inl rfl)

end AssetNotifier
